import Mathlib

/-!
Shallow embedding of `src/api_client.py` (class `APIClient`): bearer-token
loading, session header setup, URL joining, the four HTTP verb wrappers and
response normalization (`_handle_response`).

The external HTTP transport (the `requests` session) is modelled as a function
from the issued request to a transport outcome: either a transport response
(status code plus raw body text) or a raised `requests.exceptions.RequestException`
carrying a description string.  JSON decoding (`response.json()`, i.e. the
standard `json` library) is modelled as an abstract total function
`parse : String -> Option Json`: `some v` when the body text decodes to the
JSON value `v`, `none` when decoding raises `json.JSONDecodeError`.
-/

/-- JSON values as produced by `json` decoding.  Objects are ordered key/value
lists, matching insertion order of Python dicts. -/
inductive Json where
  | null : Json
  | bool (b : Bool) : Json
  | num (n : Int) : Json
  | str (s : String) : Json
  | arr (elems : List Json) : Json
  | obj (fields : List (String × Json)) : Json

/-- A Python exception escaping the client code.  The only one the client can
raise itself is `AttributeError` (calling `.get` on a decoded JSON value that
is not a dict). -/
inductive PyException where
  | attributeError (attr : String)

/-- Python `dict.get(key, default)` on the field list of a JSON object. -/
def dictGet (fields : List (String × Json)) (key : String) (dflt : Json) : Json :=
  match fields.find? (fun p => p.1 == key) with
  | some p => p.2
  | none => dflt

/-- A transport response as seen by `_handle_response`: `response.status_code`
and `response.text`. -/
structure HttpResponse where
  status : Nat
  text : String

/-- Outcome of handing a request to the transport: a response, or a raised
`requests.exceptions.RequestException` whose string form is `desc`. -/
inductive TransportOutcome where
  | success (r : HttpResponse)
  | failure (desc : String)

/-- The four HTTP verbs the client exposes. -/
inductive Verb where
  | get | post | put | delete

/-- The request the client hands to the session: verb, full URL, and the
optional query parameters (GET) or bodies (POST/PUT). -/
structure Request where
  verb : Verb
  url : String
  params : Option (List (String × String))
  data : Option String
  jsonData : Option Json

/-- Python `token.strip()`: remove leading and trailing whitespace. -/
def pyStrip (s : String) : String :=
  String.mk (((s.data.dropWhile Char.isWhitespace).reverse.dropWhile Char.isWhitespace).reverse)

/-- Python `base_url.rstrip('/')`: remove every trailing slash. -/
def rstripSlashes (s : String) : String :=
  String.mk ((s.data.reverse.dropWhile (fun c => c == '/')).reverse)

/-- Python `endpoint.lstrip('/')`: remove every leading slash. -/
def lstripSlashes (s : String) : String :=
  String.mk (s.data.dropWhile (fun c => c == '/'))

/-- The URL built by every verb method:
`f"{self.base_url.rstrip('/')}/{endpoint.lstrip('/')}"`. -/
def requestUrl (base_url endpoint : String) : String :=
  rstripSlashes base_url ++ "/" ++ lstripSlashes endpoint

/-- State of the token file on disk, as observed by `_load_token`:
missing (`Path.exists()` false), readable with the given contents, or
raising an I/O error on read. -/
inductive FileState where
  | missing
  | readError (msg : String)
  | contents (s : String)

/-- The environment as read by `os.getenv('API_BASE_URL', '')`: `some v` when
the variable is set to `v`, `none` when unset. -/
structure EnvVars where
  apiBaseUrl : Option String

/-- `APIClient._load_token`: `None` when the file is missing, raises on read,
or strips to empty; otherwise the stripped contents. -/
def load_token (fs : FileState) : Option String :=
  match fs with
  | FileState.missing => none
  | FileState.readError _ => none
  | FileState.contents s =>
      let token := pyStrip s
      if token = "" then none else some token

/-- The client state after `__init__`: stored configuration, loaded token and
the default headers the client itself set on the session. -/
structure APIClient where
  token_file : String
  base_url : String
  token : Option String
  headers : List (String × String)

/-- `APIClient.__init__(token_file, base_url)`: resolves
`base_url or os.getenv('API_BASE_URL', '')` (a `None` or empty-string argument
falls through to the environment), loads the token, and when a token is present
sets the `Authorization` and `Content-Type` default headers. -/
def APIClient.init (token_file : String) (base_url : Option String)
    (env : EnvVars) (fs : FileState) : APIClient :=
  let bu :=
    match base_url with
    | some b => if b = "" then env.apiBaseUrl.getD "" else b
    | none => env.apiBaseUrl.getD ""
  let tok := load_token fs
  { token_file := token_file
    base_url := bu
    token := tok
    headers :=
      match tok with
      | some t => [("Authorization", "Bearer " ++ t), ("Content-Type", "application/json")]
      | none => [] }

/-- `APIClient._handle_response`: try `response.json()`; on success branch on
the status code, reading `json_response.get('message', 'Unknown error')` in the
error branch — which raises `AttributeError` when the decoded value is not a
dict; on `json.JSONDecodeError` fall back to the raw text. -/
def handle_response (parse : String → Option Json) (r : HttpResponse) :
    Except PyException Json :=
  match parse r.text with
  | some json_response =>
      if r.status ≥ 400 then
        match json_response with
        | Json.obj fields =>
            Except.ok (Json.obj
              [("error", Json.str ("HTTP " ++ toString r.status)),
               ("message", dictGet fields "message" (Json.str "Unknown error")),
               ("details", Json.obj fields)])
        | _ => Except.error (PyException.attributeError "get")
      else
        Except.ok json_response
  | none =>
      if r.status ≥ 400 then
        Except.ok (Json.obj
          [("error", Json.str ("HTTP " ++ toString r.status)),
           ("message", Json.str (if r.text = "" then "Unknown error" else r.text))])
      else
        Except.ok (Json.obj [("content", Json.str r.text)])

/-- The request `APIClient.get` hands to `self.session.get(url, params=params)`. -/
def APIClient.getRequest (c : APIClient) (endpoint : String)
    (params : Option (List (String × String))) : Request :=
  { verb := Verb.get, url := requestUrl c.base_url endpoint,
    params := params, data := none, jsonData := none }

/-- The request `APIClient.post` hands to `self.session.post(url, data=data, json=json_data)`. -/
def APIClient.postRequest (c : APIClient) (endpoint : String)
    (data : Option String) (json_data : Option Json) : Request :=
  { verb := Verb.post, url := requestUrl c.base_url endpoint,
    params := none, data := data, jsonData := json_data }

/-- The request `APIClient.put` hands to `self.session.put(url, data=data, json=json_data)`. -/
def APIClient.putRequest (c : APIClient) (endpoint : String)
    (data : Option String) (json_data : Option Json) : Request :=
  { verb := Verb.put, url := requestUrl c.base_url endpoint,
    params := none, data := data, jsonData := json_data }

/-- The request `APIClient.delete` hands to `self.session.delete(url)`. -/
def APIClient.deleteRequest (c : APIClient) (endpoint : String) : Request :=
  { verb := Verb.delete, url := requestUrl c.base_url endpoint,
    params := none, data := none, jsonData := none }

/-- `APIClient.get(endpoint, params)`: build the URL, issue the request, catch
`RequestException` into the error mapping, otherwise normalize the response. -/
def APIClient.get (c : APIClient) (transport : Request → TransportOutcome)
    (parse : String → Option Json) (endpoint : String)
    (params : Option (List (String × String))) : Except PyException Json :=
  match transport (c.getRequest endpoint params) with
  | TransportOutcome.success r => handle_response parse r
  | TransportOutcome.failure e =>
      Except.ok (Json.obj [("error", Json.str ("Request failed: " ++ e))])

/-- `APIClient.post(endpoint, data, json_data)`: same shape as `get`. -/
def APIClient.post (c : APIClient) (transport : Request → TransportOutcome)
    (parse : String → Option Json) (endpoint : String)
    (data : Option String) (json_data : Option Json) : Except PyException Json :=
  match transport (c.postRequest endpoint data json_data) with
  | TransportOutcome.success r => handle_response parse r
  | TransportOutcome.failure e =>
      Except.ok (Json.obj [("error", Json.str ("Request failed: " ++ e))])

/-- `APIClient.put(endpoint, data, json_data)`: same shape as `get`. -/
def APIClient.put (c : APIClient) (transport : Request → TransportOutcome)
    (parse : String → Option Json) (endpoint : String)
    (data : Option String) (json_data : Option Json) : Except PyException Json :=
  match transport (c.putRequest endpoint data json_data) with
  | TransportOutcome.success r => handle_response parse r
  | TransportOutcome.failure e =>
      Except.ok (Json.obj [("error", Json.str ("Request failed: " ++ e))])

/-- `APIClient.delete(endpoint)`: same shape as `get`. -/
def APIClient.delete (c : APIClient) (transport : Request → TransportOutcome)
    (parse : String → Option Json) (endpoint : String) : Except PyException Json :=
  match transport (c.deleteRequest endpoint) with
  | TransportOutcome.success r => handle_response parse r
  | TransportOutcome.failure e =>
      Except.ok (Json.obj [("error", Json.str ("Request failed: " ++ e))])

/-- Observation: is this JSON value an object (a Python dict)? -/
def isObj : Json → Bool
  | Json.obj _ => true
  | _ => false

/-- Observation: did the call return normally with a mapping value? -/
def isMapping : Except PyException Json → Bool
  | Except.ok (Json.obj _) => true
  | _ => false

/-- Observation: does the string end in a slash? -/
def lastIsSlash (s : String) : Bool :=
  s.data.getLast? == some '/'

/-- Observation: does the string start with a slash? -/
def headIsSlash (s : String) : Bool :=
  s.data.head? == some '/'

/-- Demo client: explicit base URL and a token file holding a token. -/
def clientA : APIClient :=
  APIClient.init "token.txt" (some "https://api.test.com/") ⟨none⟩
    (FileState.contents "test_token_12345")

/-- Demo client: no explicit base URL, base URL from the environment, missing
token file (so no token and no auth header). -/
def clientB : APIClient :=
  APIClient.init "token.txt" none ⟨some "https://other.example.com"⟩ FileState.missing

/-- Decoder acting like `json.loads` on the body texts used below: the text
`[1, 2, 3]` decodes to the JSON array `[1, 2, 3]`; other texts fail to decode. -/
def parseArr : String → Option Json := fun s =>
  if s = "[1, 2, 3]" then some (Json.arr [Json.num 1, Json.num 2, Json.num 3]) else none

/-- Decoder acting like `json.loads` on the body texts used below: the object
body text decodes to a one-field object carrying a message; other texts fail. -/
def parseMsg : String → Option Json := fun s =>
  if s = "\x7b\"message\": \"Not found\"\x7d" then
    some (Json.obj [("message", Json.str "Not found")])
  else none

/-- Decoder for non-JSON bodies: decoding always fails. -/
def parseNone : String → Option Json := fun _ => none

/-- Transport returning status 200 with a JSON-array body text. -/
def transport200arr : Request → TransportOutcome := fun _ =>
  TransportOutcome.success ⟨200, "[1, 2, 3]"⟩

/-- Transport returning status 404 with a JSON-array body text. -/
def transport404arr : Request → TransportOutcome := fun _ =>
  TransportOutcome.success ⟨404, "[1, 2, 3]"⟩

/-- Transport returning status 404 with a body decoding to an object that has a
message field. -/
def transport404msg : Request → TransportOutcome := fun _ =>
  TransportOutcome.success ⟨404, "\x7b\"message\": \"Not found\"\x7d"⟩

/-- Transport returning status 200 with a non-JSON plain-text body. -/
def transport200text : Request → TransportOutcome := fun _ =>
  TransportOutcome.success ⟨200, "Plain text response"⟩

/-- Transport returning status 404 with a non-JSON plain-text body. -/
def transport404text : Request → TransportOutcome := fun _ =>
  TransportOutcome.success ⟨404, "Service unavailable text"⟩

/-- Transport raising a connection failure (`requests.exceptions.ConnectionError`). -/
def transportFail : Request → TransportOutcome := fun _ =>
  TransportOutcome.failure "Connection refused"

/-- The head of a list after dropping a satisfying run never satisfies the
dropped predicate. -/
theorem head_dropWhile_not (p : Char → Bool) (l : List Char) :
    ∀ c, ((l.dropWhile p).head? = some c) → p c = false := by
  induction l with
  | nil => intro c h; simp [List.dropWhile] at h
  | cons a l ih =>
    intro c h
    rw [List.dropWhile_cons] at h
    by_cases hp : p a
    · simp [hp] at h; exact ih c h
    · simp [hp] at h; subst h; simpa using hp

/-- Stripping trailing slashes leaves a string that does not end in a slash. -/
theorem lastIsSlash_rstripSlashes (s : String) : lastIsSlash (rstripSlashes s) = false := by
  show ((s.data.reverse.dropWhile (fun c => c == '/')).reverse.getLast? == some '/') = false
  rw [List.getLast?_reverse]
  cases h : (s.data.reverse.dropWhile (fun c => c == '/')).head? with
  | none => rfl
  | some c => exact head_dropWhile_not _ _ c h

/-- Stripping leading slashes leaves a string that does not start with a slash. -/
theorem headIsSlash_lstripSlashes (s : String) : headIsSlash (lstripSlashes s) = false := by
  show ((s.data.dropWhile (fun c => c == '/')).head? == some '/') = false
  cases h : (s.data.dropWhile (fun c => c == '/')).head? with
  | none => rfl
  | some c => exact head_dropWhile_not _ _ c h

/-- Normalization on a sub-400 status with a decoding body: pass-through. -/
theorem handle_response_some_lt (parse : String → Option Json) (r : HttpResponse)
    (j : Json) (hs : r.status < 400) (hp : parse r.text = some j) :
    handle_response parse r = Except.ok j := by
  simp only [handle_response, hp]
  rw [if_neg (by omega : ¬ r.status ≥ 400)]

/-- Normalization on a sub-400 status with a non-decoding body: content wrap. -/
theorem handle_response_none_lt (parse : String → Option Json) (r : HttpResponse)
    (hs : r.status < 400) (hp : parse r.text = none) :
    handle_response parse r = Except.ok (Json.obj [("content", Json.str r.text)]) := by
  simp only [handle_response, hp]
  rw [if_neg (by omega : ¬ r.status ≥ 400)]

/-- Normalization on an error status with a body decoding to an object. -/
theorem handle_response_obj_ge (parse : String → Option Json) (r : HttpResponse)
    (fields : List (String × Json)) (hs : 400 ≤ r.status)
    (hp : parse r.text = some (Json.obj fields)) :
    handle_response parse r = Except.ok (Json.obj
      [("error", Json.str ("HTTP " ++ toString r.status)),
       ("message", dictGet fields "message" (Json.str "Unknown error")),
       ("details", Json.obj fields)]) := by
  simp only [handle_response, hp]
  rw [if_pos (by omega : r.status ≥ 400)]

/-- Normalization on an error status with a body decoding to a non-object:
the `.get` attribute lookup raises `AttributeError`. -/
theorem handle_response_nonobj_ge (parse : String → Option Json) (r : HttpResponse)
    (j : Json) (hs : 400 ≤ r.status) (hp : parse r.text = some j)
    (hj : isObj j = false) :
    handle_response parse r = Except.error (PyException.attributeError "get") := by
  simp only [handle_response, hp]
  rw [if_pos (by omega : r.status ≥ 400)]
  cases j <;> first | rfl | simp [isObj] at hj

/-- Normalization on an error status with a non-decoding body. -/
theorem handle_response_none_ge (parse : String → Option Json) (r : HttpResponse)
    (hs : 400 ≤ r.status) (hp : parse r.text = none) :
    handle_response parse r = Except.ok (Json.obj
      [("error", Json.str ("HTTP " ++ toString r.status)),
       ("message", Json.str (if r.text = "" then "Unknown error" else r.text))]) := by
  simp only [handle_response, hp]
  rw [if_pos (by omega : r.status ≥ 400)]

/-- C3: for every transport response with status < 400, every verb call returns
exactly the decoded JSON value when the body decodes, and the content-wrapped
raw text when it does not. -/
theorem success_normalization (c : APIClient) (transport : Request → TransportOutcome)
    (parse : String → Option Json) (endpoint : String)
    (params : Option (List (String × String))) (data : Option String)
    (json_data : Option Json) (r : HttpResponse)
    (ht : ∀ q, transport q = TransportOutcome.success r)
    (hs : r.status < 400) :
    (∀ j, parse r.text = some j →
      c.get transport parse endpoint params = Except.ok j ∧
      c.post transport parse endpoint data json_data = Except.ok j ∧
      c.put transport parse endpoint data json_data = Except.ok j ∧
      c.delete transport parse endpoint = Except.ok j) ∧
    (parse r.text = none →
      c.get transport parse endpoint params = Except.ok (Json.obj [("content", Json.str r.text)]) ∧
      c.post transport parse endpoint data json_data = Except.ok (Json.obj [("content", Json.str r.text)]) ∧
      c.put transport parse endpoint data json_data = Except.ok (Json.obj [("content", Json.str r.text)]) ∧
      c.delete transport parse endpoint = Except.ok (Json.obj [("content", Json.str r.text)])) := by
  refine ⟨fun j hp => ⟨?_, ?_, ?_, ?_⟩, fun hp => ⟨?_, ?_, ?_, ?_⟩⟩ <;>
    simp only [APIClient.get, APIClient.post, APIClient.put, APIClient.delete, ht] <;>
    first
      | exact handle_response_some_lt parse r j hs hp
      | exact handle_response_none_lt parse r hs hp

/-- C3 witness: a 200 response with JSON body passes through; a 200 response
with non-JSON text is wrapped under a content key. -/
theorem success_normalization_witness :
    clientA.get transport200arr parseArr "api/users" none =
      Except.ok (Json.arr [Json.num 1, Json.num 2, Json.num 3]) ∧
    clientA.get transport200text parseNone "api/users" none =
      Except.ok (Json.obj [("content", Json.str "Plain text response")]) :=
  ⟨((success_normalization clientA transport200arr parseArr "api/users" none none none
      ⟨200, "[1, 2, 3]"⟩ (fun _ => rfl) (by decide)).1
      (Json.arr [Json.num 1, Json.num 2, Json.num 3]) rfl).1,
   ((success_normalization clientA transport200text parseNone "api/users" none none none
      ⟨200, "Plain text response"⟩ (fun _ => rfl) (by decide)).2 rfl).1⟩

/-- C4: when the transport raises, every verb call returns the single error
mapping with a Request failed message, and no exception propagates. -/
theorem transport_failure_normalized (c : APIClient) (transport : Request → TransportOutcome)
    (parse : String → Option Json) (endpoint : String)
    (params : Option (List (String × String))) (data : Option String)
    (json_data : Option Json) (e : String)
    (ht : ∀ q, transport q = TransportOutcome.failure e) :
    c.get transport parse endpoint params =
      Except.ok (Json.obj [("error", Json.str ("Request failed: " ++ e))]) ∧
    c.post transport parse endpoint data json_data =
      Except.ok (Json.obj [("error", Json.str ("Request failed: " ++ e))]) ∧
    c.put transport parse endpoint data json_data =
      Except.ok (Json.obj [("error", Json.str ("Request failed: " ++ e))]) ∧
    c.delete transport parse endpoint =
      Except.ok (Json.obj [("error", Json.str ("Request failed: " ++ e))]) := by
  refine ⟨?_, ?_, ?_, ?_⟩ <;>
    simp only [APIClient.get, APIClient.post, APIClient.put, APIClient.delete, ht]

/-- C4 witness: a POST over a transport raising a connection failure returns
the concrete Request failed mapping. -/
theorem transport_failure_normalized_witness :
    clientA.post transportFail parseNone "api/users" none none =
      Except.ok (Json.obj [("error", Json.str "Request failed: Connection refused")]) :=
  (transport_failure_normalized clientA transportFail parseNone "api/users" none none none
    "Connection refused" (fun _ => rfl)).2.1

/-- C5: every verb builds its request URL as the base URL with trailing slashes
stripped, one slash, then the endpoint with leading slashes stripped; the
stripped base never ends in a slash and the stripped endpoint never starts
with one, so exactly one slash separates them. -/
theorem url_join_single_slash (c : APIClient) (endpoint : String)
    (params : Option (List (String × String))) (data : Option String)
    (json_data : Option Json) :
    (c.getRequest endpoint params).url =
      rstripSlashes c.base_url ++ "/" ++ lstripSlashes endpoint ∧
    (c.postRequest endpoint data json_data).url =
      rstripSlashes c.base_url ++ "/" ++ lstripSlashes endpoint ∧
    (c.putRequest endpoint data json_data).url =
      rstripSlashes c.base_url ++ "/" ++ lstripSlashes endpoint ∧
    (c.deleteRequest endpoint).url =
      rstripSlashes c.base_url ++ "/" ++ lstripSlashes endpoint ∧
    lastIsSlash (rstripSlashes c.base_url) = false ∧
    headIsSlash (lstripSlashes endpoint) = false :=
  ⟨rfl, rfl, rfl, rfl, lastIsSlash_rstripSlashes c.base_url, headIsSlash_lstripSlashes endpoint⟩

/-- C6: token loading is total and fails soft — missing file, read error, or
whitespace-only contents leave the token absent; otherwise the token is the
stripped file contents; construction always yields a client. -/
theorem token_loading_soft_fail :
    (∀ tf bu env, (APIClient.init tf bu env FileState.missing).token = none) ∧
    (∀ tf bu env m, (APIClient.init tf bu env (FileState.readError m)).token = none) ∧
    (∀ tf bu env s, pyStrip s = "" →
      (APIClient.init tf bu env (FileState.contents s)).token = none) ∧
    (∀ tf bu env s, pyStrip s ≠ "" →
      (APIClient.init tf bu env (FileState.contents s)).token = some (pyStrip s)) := by
  refine ⟨fun tf bu env => rfl, fun tf bu env m => rfl,
    fun tf bu env s h => ?_, fun tf bu env s h => ?_⟩ <;>
    simp [APIClient.init, load_token, h]

/-- C6 witness: a whitespace-only token file loads no token; a padded token
file loads the stripped token. -/
theorem token_loading_soft_fail_witness :
    (APIClient.init "token.txt" none ⟨none⟩ (FileState.contents "   ")).token = none ∧
    (APIClient.init "token.txt" none ⟨none⟩
      (FileState.contents " test_token_12345\n")).token = some "test_token_12345" :=
  ⟨token_loading_soft_fail.2.2.1 "token.txt" none ⟨none⟩ "   " (by decide),
   token_loading_soft_fail.2.2.2 "token.txt" none ⟨none⟩ " test_token_12345\n" (by decide)⟩

/-- C7: with a loaded token the client sets exactly the Authorization bearer
header and the JSON Content-Type as session defaults; with no token it sets no
headers at all, in particular no Authorization default. -/
theorem session_default_headers (tf : String) (bu : Option String) (env : EnvVars)
    (fs : FileState) :
    (∀ t, (APIClient.init tf bu env fs).token = some t →
      (APIClient.init tf bu env fs).headers =
        [("Authorization", "Bearer " ++ t), ("Content-Type", "application/json")]) ∧
    ((APIClient.init tf bu env fs).token = none →
      (APIClient.init tf bu env fs).headers = [] ∧
      ((APIClient.init tf bu env fs).headers.find? (fun p => p.1 == "Authorization")) = none) := by
  constructor
  · intro t ht
    have htok : load_token fs = some t := by simpa [APIClient.init] using ht
    simp [APIClient.init, htok]
  · intro hn
    have htok : load_token fs = none := by simpa [APIClient.init] using hn
    simp [APIClient.init, htok]

/-- C7 witness: a client with a loaded token carries exactly the two default
headers; a client with a missing token file has no Authorization default. -/
theorem session_default_headers_witness :
    (APIClient.init "token.txt" (some "https://api.test.com/") ⟨none⟩
      (FileState.contents "test_token_12345")).headers =
      [("Authorization", "Bearer test_token_12345"),
       ("Content-Type", "application/json")] ∧
    ((APIClient.init "token.txt" none ⟨none⟩ FileState.missing).headers.find?
      (fun p => p.1 == "Authorization")) = none :=
  ⟨(session_default_headers "token.txt" (some "https://api.test.com/") ⟨none⟩
      (FileState.contents "test_token_12345")).1 "test_token_12345" (by decide),
   ((session_default_headers "token.txt" none ⟨none⟩ FileState.missing).2 (by decide)).2⟩

/-- C8 counterexample: with an explicit empty-string base URL argument and the
environment variable set, the stored base URL is the environment value, not the
provided explicit argument. -/
theorem base_url_empty_arg_counterexample :
    (APIClient.init "token.txt" (some "") ⟨some "https://env.example.com"⟩
      FileState.missing).base_url = "https://env.example.com" ∧
    (APIClient.init "token.txt" (some "") ⟨some "https://env.example.com"⟩
      FileState.missing).base_url ≠ "" :=
  ⟨by decide, by decide⟩

/-- C8 amended: the stored base URL is the explicit argument whenever one is
provided and non-empty; otherwise (argument absent or empty) it is the
environment value API_BASE_URL, or the empty string when that is unset. -/
theorem base_url_resolution_amended (tf : String) (arg : Option String) (env : EnvVars)
    (fs : FileState) :
    (∀ b, arg = some b → b ≠ "" → (APIClient.init tf arg env fs).base_url = b) ∧
    ((arg = none ∨ arg = some "") → ∀ v, env.apiBaseUrl = some v →
      (APIClient.init tf arg env fs).base_url = v) ∧
    ((arg = none ∨ arg = some "") → env.apiBaseUrl = none →
      (APIClient.init tf arg env fs).base_url = "") := by
  refine ⟨?_, ?_, ?_⟩
  · intro b hb hne; subst hb; simp [APIClient.init, hne]
  · rintro (rfl | rfl) v hv <;> simp [APIClient.init, hv]
  · rintro (rfl | rfl) hv <;> simp [APIClient.init, hv]

/-- C8 amended witness: a non-empty explicit argument wins over the environment;
with no argument the environment value is used; with neither, the base URL is
empty. -/
theorem base_url_resolution_amended_witness :
    (APIClient.init "token.txt" (some "https://api.test.com")
      ⟨some "https://env.example.com"⟩ FileState.missing).base_url = "https://api.test.com" ∧
    (APIClient.init "token.txt" none ⟨some "https://env.example.com"⟩
      FileState.missing).base_url = "https://env.example.com" ∧
    (APIClient.init "token.txt" none ⟨none⟩ FileState.missing).base_url = "" :=
  ⟨(base_url_resolution_amended "token.txt" (some "https://api.test.com")
      ⟨some "https://env.example.com"⟩ FileState.missing).1 "https://api.test.com"
      rfl (by decide),
   (base_url_resolution_amended "token.txt" none ⟨some "https://env.example.com"⟩
      FileState.missing).2.1 (Or.inl rfl) "https://env.example.com" rfl,
   (base_url_resolution_amended "token.txt" none ⟨none⟩ FileState.missing).2.2
      (Or.inl rfl) rfl⟩

/-- C9 counterexample: with an empty base URL, a GET for endpoint api/users is
issued to /api/users, not to the literal endpoint argument. -/
theorem empty_base_literal_counterexample :
    (APIClient.init "token.txt" none ⟨none⟩ FileState.missing).base_url = "" ∧
    ((APIClient.init "token.txt" none ⟨none⟩ FileState.missing).getRequest
      "api/users" none).url ≠ "api/users" :=
  ⟨by decide, by decide⟩

/-- C9 amended: when the resolved base URL is empty, every verb call targets a
slash followed by the endpoint with its leading slashes stripped — equal to the
endpoint argument only when that argument already starts with exactly one
slash. -/
theorem empty_base_url_amended (c : APIClient) (endpoint : String)
    (params : Option (List (String × String))) (data : Option String)
    (json_data : Option Json) (hb : c.base_url = "") :
    (c.getRequest endpoint params).url = "/" ++ lstripSlashes endpoint ∧
    (c.postRequest endpoint data json_data).url = "/" ++ lstripSlashes endpoint ∧
    (c.putRequest endpoint data json_data).url = "/" ++ lstripSlashes endpoint ∧
    (c.deleteRequest endpoint).url = "/" ++ lstripSlashes endpoint := by
  refine ⟨?_, ?_, ?_, ?_⟩ <;>
    simp only [APIClient.getRequest, APIClient.postRequest, APIClient.putRequest,
      APIClient.deleteRequest, requestUrl, hb] <;>
    rfl

/-- C9 amended witness: with an empty base URL the GET request URL for
api/users is /api/users. -/
theorem empty_base_url_amended_witness :
    ((APIClient.init "token.txt" none ⟨none⟩ FileState.missing).getRequest
      "api/users" none).url = "/api/users" :=
  (empty_base_url_amended (APIClient.init "token.txt" none ⟨none⟩ FileState.missing)
    "api/users" none none none (by decide)).1

/-- C10: normalization is deterministic and credential-independent — any two
clients receiving transport responses with the same status and body produce
identical normalized results, each equal to the normalization of that response
alone. -/
theorem normalization_noninterference (c₁ c₂ : APIClient)
    (t₁ t₂ : Request → TransportOutcome) (parse : String → Option Json)
    (e₁ e₂ : String) (p₁ p₂ : Option (List (String × String)))
    (d₁ d₂ : Option String) (j₁ j₂ : Option Json) (r : HttpResponse)
    (h₁ : ∀ q, t₁ q = TransportOutcome.success r)
    (h₂ : ∀ q, t₂ q = TransportOutcome.success r) :
    c₁.get t₁ parse e₁ p₁ = handle_response parse r ∧
    c₁.post t₁ parse e₁ d₁ j₁ = handle_response parse r ∧
    c₁.put t₁ parse e₁ d₁ j₁ = handle_response parse r ∧
    c₁.delete t₁ parse e₁ = handle_response parse r ∧
    c₁.get t₁ parse e₁ p₁ = c₂.get t₂ parse e₂ p₂ ∧
    c₁.post t₁ parse e₁ d₁ j₁ = c₂.post t₂ parse e₂ d₂ j₂ ∧
    c₁.put t₁ parse e₁ d₁ j₁ = c₂.put t₂ parse e₂ d₂ j₂ ∧
    c₁.delete t₁ parse e₁ = c₂.delete t₂ parse e₂ := by
  refine ⟨?_, ?_, ?_, ?_, ?_, ?_, ?_, ?_⟩ <;>
    simp only [APIClient.get, APIClient.post, APIClient.put, APIClient.delete, h₁, h₂]

/-- C10 witness: a client holding a token and one holding none, with different
base URLs and endpoints, normalize the same 404 response identically. -/
theorem normalization_noninterference_witness :
    clientA.get transport404msg parseMsg "api/users" none =
      clientB.get transport404msg parseMsg "other/endpoint" (some [("q", "1")]) :=
  (normalization_noninterference clientA clientB transport404msg transport404msg parseMsg
    "api/users" "other/endpoint" none (some [("q", "1")]) none none none none
    ⟨404, "\x7b\"message\": \"Not found\"\x7d"⟩
    (fun _ => rfl) (fun _ => rfl)).2.2.2.2.1

/-- C1 counterexample: a GET whose 200 response body decodes to the JSON array
[1, 2, 3] returns that array verbatim — the value handed to the caller is not
a mapping. -/
theorem get_nonmapping_counterexample :
    clientA.get transport200arr parseArr "api/users" none =
      Except.ok (Json.arr [Json.num 1, Json.num 2, Json.num 3]) ∧
    isMapping (clientA.get transport200arr parseArr "api/users" none) = false :=
  ⟨rfl, rfl⟩

/-- C1 amended: a transport failure, a non-decoding body, or a body decoding to
a JSON object always yields a single mapping (no transport exception ever
escapes); a body decoding to a non-object JSON value is returned verbatim when
the status is below 400 — not necessarily a mapping — and raises
AttributeError when the status is 400 or above. -/
theorem verb_result_shape_amended (c : APIClient) (transport : Request → TransportOutcome)
    (parse : String → Option Json) (endpoint : String)
    (params : Option (List (String × String))) (data : Option String)
    (json_data : Option Json) :
    (∀ e, (∀ q, transport q = TransportOutcome.failure e) →
      isMapping (c.get transport parse endpoint params) = true ∧
      isMapping (c.post transport parse endpoint data json_data) = true ∧
      isMapping (c.put transport parse endpoint data json_data) = true ∧
      isMapping (c.delete transport parse endpoint) = true) ∧
    (∀ r, (∀ q, transport q = TransportOutcome.success r) →
      (parse r.text = none →
        isMapping (c.get transport parse endpoint params) = true ∧
        isMapping (c.post transport parse endpoint data json_data) = true ∧
        isMapping (c.put transport parse endpoint data json_data) = true ∧
        isMapping (c.delete transport parse endpoint) = true) ∧
      (∀ fields, parse r.text = some (Json.obj fields) →
        isMapping (c.get transport parse endpoint params) = true ∧
        isMapping (c.post transport parse endpoint data json_data) = true ∧
        isMapping (c.put transport parse endpoint data json_data) = true ∧
        isMapping (c.delete transport parse endpoint) = true) ∧
      (∀ j, parse r.text = some j → isObj j = false →
        (r.status < 400 →
          c.get transport parse endpoint params = Except.ok j ∧
          c.post transport parse endpoint data json_data = Except.ok j ∧
          c.put transport parse endpoint data json_data = Except.ok j ∧
          c.delete transport parse endpoint = Except.ok j) ∧
        (400 ≤ r.status →
          c.get transport parse endpoint params =
            Except.error (PyException.attributeError "get") ∧
          c.post transport parse endpoint data json_data =
            Except.error (PyException.attributeError "get") ∧
          c.put transport parse endpoint data json_data =
            Except.error (PyException.attributeError "get") ∧
          c.delete transport parse endpoint =
            Except.error (PyException.attributeError "get")))) := by
  constructor
  · intro e ht
    refine ⟨?_, ?_, ?_, ?_⟩ <;>
      simp only [APIClient.get, APIClient.post, APIClient.put, APIClient.delete, ht] <;>
      rfl
  · intro r ht
    refine ⟨fun hp => ⟨?_, ?_, ?_, ?_⟩,
      fun fields hp => ⟨?_, ?_, ?_, ?_⟩,
      fun j hp hj => ⟨fun hs => ⟨?_, ?_, ?_, ?_⟩, fun hs => ⟨?_, ?_, ?_, ?_⟩⟩⟩ <;>
      simp only [APIClient.get, APIClient.post, APIClient.put, APIClient.delete, ht] <;>
      first
        | (rcases Nat.lt_or_ge r.status 400 with hs | hs
           · rw [handle_response_none_lt parse r hs hp]; rfl
           · rw [handle_response_none_ge parse r hs hp]; rfl)
        | (rcases Nat.lt_or_ge r.status 400 with hs | hs
           · rw [handle_response_some_lt parse r (Json.obj fields) hs hp]; rfl
           · rw [handle_response_obj_ge parse r fields hs hp]; rfl)
        | exact handle_response_some_lt parse r j hs hp
        | exact handle_response_nonobj_ge parse r j hs hp hj

/-- C1 amended witness: a connection failure yields a mapping, and a 404 with a
JSON-array body raises AttributeError. -/
theorem verb_result_shape_amended_witness :
    isMapping (clientA.get transportFail parseNone "api/users" none) = true ∧
    clientA.get transport404arr parseArr "api/users" none =
      Except.error (PyException.attributeError "get") :=
  ⟨((verb_result_shape_amended clientA transportFail parseNone "api/users" none
      none none).1 "Connection refused" (fun _ => rfl)).1,
   ((((verb_result_shape_amended clientA transport404arr parseArr "api/users" none
      none none).2 ⟨404, "[1, 2, 3]"⟩ (fun _ => rfl)).2.2
      (Json.arr [Json.num 1, Json.num 2, Json.num 3]) rfl rfl).2 (by decide)).1⟩

/-- C2 counterexample: a GET whose 404 response body decodes to the JSON array
[1, 2, 3] does not return the claimed error mapping — the attribute lookup on
the decoded non-dict value raises AttributeError, which escapes the call. -/
theorem error_branch_nondict_counterexample :
    clientA.get transport404arr parseArr "api/users" none =
      Except.error (PyException.attributeError "get") ∧
    isMapping (clientA.get transport404arr parseArr "api/users" none) = false :=
  ⟨rfl, rfl⟩

/-- C2 amended: for a transport response with status 400 or above — if the body
decodes to a JSON object, every verb call returns the error mapping with the
HTTP status, the message field of the decoded object (Unknown error when that
field is absent) and the full decoded object as details; if the body decodes to
non-object JSON the call raises AttributeError instead of returning; if the
body does not decode, every verb call returns the error mapping carrying the
raw text, or Unknown error when the text is empty. -/
theorem error_normalization_amended (c : APIClient) (transport : Request → TransportOutcome)
    (parse : String → Option Json) (endpoint : String)
    (params : Option (List (String × String))) (data : Option String)
    (json_data : Option Json) (r : HttpResponse)
    (ht : ∀ q, transport q = TransportOutcome.success r)
    (hs : 400 ≤ r.status) :
    (∀ fields, parse r.text = some (Json.obj fields) →
      (c.get transport parse endpoint params = Except.ok (Json.obj
        [("error", Json.str ("HTTP " ++ toString r.status)),
         ("message", dictGet fields "message" (Json.str "Unknown error")),
         ("details", Json.obj fields)]) ∧
       c.post transport parse endpoint data json_data = Except.ok (Json.obj
        [("error", Json.str ("HTTP " ++ toString r.status)),
         ("message", dictGet fields "message" (Json.str "Unknown error")),
         ("details", Json.obj fields)]) ∧
       c.put transport parse endpoint data json_data = Except.ok (Json.obj
        [("error", Json.str ("HTTP " ++ toString r.status)),
         ("message", dictGet fields "message" (Json.str "Unknown error")),
         ("details", Json.obj fields)]) ∧
       c.delete transport parse endpoint = Except.ok (Json.obj
        [("error", Json.str ("HTTP " ++ toString r.status)),
         ("message", dictGet fields "message" (Json.str "Unknown error")),
         ("details", Json.obj fields)])) ∧
      (∀ p, fields.find? (fun f => f.1 == "message") = some p →
        dictGet fields "message" (Json.str "Unknown error") = p.2) ∧
      (fields.find? (fun f => f.1 == "message") = none →
        dictGet fields "message" (Json.str "Unknown error") = Json.str "Unknown error")) ∧
    (∀ j, parse r.text = some j → isObj j = false →
      c.get transport parse endpoint params =
        Except.error (PyException.attributeError "get") ∧
      c.post transport parse endpoint data json_data =
        Except.error (PyException.attributeError "get") ∧
      c.put transport parse endpoint data json_data =
        Except.error (PyException.attributeError "get") ∧
      c.delete transport parse endpoint =
        Except.error (PyException.attributeError "get")) ∧
    (parse r.text = none →
      c.get transport parse endpoint params = Except.ok (Json.obj
        [("error", Json.str ("HTTP " ++ toString r.status)),
         ("message", Json.str (if r.text = "" then "Unknown error" else r.text))]) ∧
      c.post transport parse endpoint data json_data = Except.ok (Json.obj
        [("error", Json.str ("HTTP " ++ toString r.status)),
         ("message", Json.str (if r.text = "" then "Unknown error" else r.text))]) ∧
      c.put transport parse endpoint data json_data = Except.ok (Json.obj
        [("error", Json.str ("HTTP " ++ toString r.status)),
         ("message", Json.str (if r.text = "" then "Unknown error" else r.text))]) ∧
      c.delete transport parse endpoint = Except.ok (Json.obj
        [("error", Json.str ("HTTP " ++ toString r.status)),
         ("message", Json.str (if r.text = "" then "Unknown error" else r.text))])) := by
  refine ⟨fun fields hp => ⟨⟨?_, ?_, ?_, ?_⟩, fun p hf => ?_, fun hf => ?_⟩,
    fun j hp hj => ⟨?_, ?_, ?_, ?_⟩, fun hp => ⟨?_, ?_, ?_, ?_⟩⟩ <;>
    first
      | (simp only [APIClient.get, APIClient.post, APIClient.put, APIClient.delete, ht] <;>
         first
           | exact handle_response_obj_ge parse r fields hs hp
           | exact handle_response_nonobj_ge parse r j hs hp hj
           | exact handle_response_none_ge parse r hs hp)
      | simp [dictGet, hf]

/-- C2 amended witness: a 404 whose body decodes to an object with message
Not found yields the exact error mapping from the spec example; a 404 with a
non-decoding plain-text body yields the error mapping carrying that text. -/
theorem error_normalization_amended_witness :
    clientA.get transport404msg parseMsg "api/users" none = Except.ok (Json.obj
      [("error", Json.str "HTTP 404"),
       ("message", Json.str "Not found"),
       ("details", Json.obj [("message", Json.str "Not found")])]) ∧
    clientA.delete transport404text parseNone "api/users" = Except.ok (Json.obj
      [("error", Json.str "HTTP 404"),
       ("message", Json.str "Service unavailable text")]) :=
  ⟨(((error_normalization_amended clientA transport404msg parseMsg "api/users" none
      none none ⟨404, "\x7b\"message\": \"Not found\"\x7d"⟩ (fun _ => rfl)
      (by decide)).1 [("message", Json.str "Not found")] rfl).1).1,
   ((error_normalization_amended clientA transport404text parseNone "api/users" none
      none none ⟨404, "Service unavailable text"⟩ (fun _ => rfl)
      (by decide)).2.2 rfl).2.2.2⟩
